import Mathlib

/-!
Verification of the retry orchestration logic of
src/Assignment_18/Task_4/translation_api.py (class TranslationAPIClient).

The Python client is shallowly embedded: strings are Lean Strings, wall-clock
time is modelled with exact rationals, raised Python exceptions become an
explicit error type, and the behaviour of the network on each attempt is an
explicit stream of transport events.  Each definition mirrors one function of
the source file; spec-side classification functions (written from the design
document, for refinement comparison) are clearly marked as such.
-/

namespace TranslationClient

/-- Whitespace characters removed by Python str.strip (ASCII subset). -/
def isPySpace (c : Char) : Bool :=
  c == ' ' || c == '\t' || c == '\n' || c == '\x0d' || c == '\x0b' || c == '\x0c'

/-- List-level strip: drop leading and trailing whitespace. -/
def stripList (l : List Char) : List Char :=
  (((l.dropWhile isPySpace).reverse.dropWhile isPySpace)).reverse

/-- Embedding of Python str.strip(). -/
def pyStrip (s : String) : String :=
  String.mk (stripList s.data)

/-- Embedding of Python str.lower() (exact on the ASCII range used here). -/
def pyLower (s : String) : String :=
  String.mk (s.data.map Char.toLower)

/-- Does the first list occur as a leading segment of the second? -/
def startsWithL : List Char → List Char → Bool
  | [], _ => true
  | _ :: _, [] => false
  | a :: as, b :: bs => if a = b then startsWithL as bs else false

/-- Embedding of Python substring startswith on strings. -/
def strStartsWith (s pre : String) : Bool :=
  startsWithL pre.data s.data

/-- Does the second list occur contiguously inside the first? -/
def containsL : List Char → List Char → Bool
  | [], needle => needle.isEmpty
  | h :: t, needle => startsWithL needle (h :: t) || containsL t needle

/-- Embedding of the Python `needle in haystack` substring test. -/
def strContains (hay needle : String) : Bool :=
  containsL hay.data needle.data

/-- SUPPORTED_LANGUAGES, lines 18-62 of translation_api.py: language code to
display name, in the source's insertion order. -/
def SUPPORTED_LANGUAGES : List (String × String) := [
  ("auto", "Auto-detect"),
  ("ar", "Arabic"),
  ("bn", "Bengali"),
  ("cs", "Czech"),
  ("cy", "Welsh"),
  ("da", "Danish"),
  ("de", "German"),
  ("el", "Greek"),
  ("en", "English"),
  ("es", "Spanish"),
  ("fa", "Farsi"),
  ("fi", "Finnish"),
  ("fr", "French"),
  ("gu", "Gujarati"),
  ("he", "Hebrew"),
  ("hi", "Hindi"),
  ("hu", "Hungarian"),
  ("id", "Indonesian"),
  ("it", "Italian"),
  ("ja", "Japanese"),
  ("kn", "Kannada"),
  ("ko", "Korean"),
  ("lt", "Lithuanian"),
  ("lv", "Latvian"),
  ("mk", "Macedonian"),
  ("ml", "Malayalam"),
  ("mr", "Marathi"),
  ("ne", "Nepali"),
  ("nl", "Dutch"),
  ("pa", "Punjabi"),
  ("pl", "Polish"),
  ("pt", "Portuguese"),
  ("ro", "Romanian"),
  ("ru", "Russian"),
  ("sk", "Slovak"),
  ("sl", "Slovenian"),
  ("sv", "Swedish"),
  ("ta", "Tamil"),
  ("te", "Telugu"),
  ("tr", "Turkish"),
  ("uk", "Ukrainian"),
  ("vi", "Vietnamese"),
  ("zh", "Chinese")]

/-- Membership test of a code in SUPPORTED_LANGUAGES (Python `in` on the dict). -/
def isSupportedLanguage (code : String) : Bool :=
  (SUPPORTED_LANGUAGES.lookup code).isSome

/-- Insert a string into an already sorted list (ascending). -/
def insertSorted (x : String) : List String → List String
  | [] => [x]
  | y :: ys => if x < y then x :: y :: ys else y :: insertSorted x ys

/-- Ascending lexicographic sort, embedding Python sorted(). -/
def sortStrings : List String → List String
  | [] => []
  | x :: xs => insertSorted x (sortStrings xs)

/-- The `available` text of the invalid-language message, line 159:
sorted supported codes joined by a comma, truncated to 100 characters. -/
def availableCodes : String :=
  String.mk ((String.intercalate ", "
    (sortStrings (SUPPORTED_LANGUAGES.map Prod.fst))).data.take 100)

/-- validate_input, lines 134-165: returns (is_valid, error_message) with the
source's check order: blank text, stripped length over 5000, blank target,
then case-insensitive trimmed membership in SUPPORTED_LANGUAGES. -/
def validate_input (text target_language : String) : Bool × Option String :=
  if text = "" ∨ pyStrip text = "" then
    (false, some "Text cannot be empty. Please provide text to translate.")
  else if (pyStrip text).length > 5000 then
    (false, some "Text too long. Maximum 5000 characters allowed.")
  else if target_language = "" ∨ pyStrip target_language = "" then
    (false, some "Target language code cannot be empty.")
  else
    let lang_code := pyStrip (pyLower target_language)
    if isSupportedLanguage lang_code = false then
      (false, some ("Invalid language code: \x27" ++ target_language ++
        "\x27. Supported codes: " ++ availableCodes ++ "..."))
    else
      (true, none)

/-- RetryStrategy enum, lines 65-69. -/
inductive RetryStrategy where
  | exponential
  | linear
  | immediate
deriving DecidableEq, Repr

/-- Client configuration: max_retries and use_mock from __init__ (lines
94-105); RETRY_STRATEGY and RETRY_DELAY are the class attributes of lines
87-89, accessed through self, so they are carried per instance with the
class defaults.  The constructor stores max_retries without any bound check. -/
structure Client where
  maxRetries : Nat := 3
  useMock : Bool := false
  retryStrategy : RetryStrategy := .exponential
  retryDelay : Nat := 1
deriving DecidableEq, Repr

/-- calculate_retry_delay, lines 117-132 (the values are integers for the
integral RETRY_DELAY used throughout the source). -/
def calculateRetryDelay (c : Client) (attempt : Nat) : Nat :=
  match c.retryStrategy with
  | .exponential => c.retryDelay * 2 ^ attempt
  | .linear => c.retryDelay * (attempt + 1)
  | .immediate => 0

/-- REQUEST_TIMEOUT, line 92: minimum spacing between live requests. -/
def minInterval : ℚ := 1 / 2

/-- rate_limit, lines 107-115, with wall-clock time made explicit: given the
stored last_request_time and the current time, return the sleep duration and
the new last_request_time (the source re-reads the clock after sleeping, so
the new value is the time at which the wait ends). -/
def rateLimitStep (last now : ℚ) : ℚ × ℚ :=
  let elapsed := now - last
  if elapsed < minInterval then
    (minInterval - elapsed, now + (minInterval - elapsed))
  else
    (0, now)

/-- Python exceptions raised by the client, with their messages.
ConnectionError is the requests.exceptions class imported at line 13. -/
inductive PyExc where
  | timeoutError (msg : String)
  | connectionError (msg : String)
  | valueError (msg : String)
  | requestException (msg : String)
deriving DecidableEq, Repr

/-- A provider JSON payload as far as the classifier inspects it: either not
an object, or an object with an optional error field and an optional
translatedText field. -/
inductive Payload where
  | nonDict
  | dict (error : Option String) (translatedText : Option String)
deriving DecidableEq, Repr

/-- What the network does on one live attempt: time out, fail to connect,
raise some other requests exception, return unparseable JSON, or return a
parsed payload. -/
inductive TransportEvent where
  | timeout
  | connFail
  | otherRequestExc (msg : String)
  | badJson
  | payload (p : Payload)
deriving DecidableEq, Repr

/-- The translation data a successful fetch returns, restricted to the fields
the orchestrator and the claims inspect. -/
structure TransData where
  translatedText : String
  detectedLanguage : Option (String × ℚ)
  is_mock : Bool
deriving DecidableEq, Repr

/-- The mock translation table of _fetch_mock_translation, lines 178-200,
with the exact byte content of the source file. -/
def mock_translations : List ((String × String) × String) := [
  (("hello world", "es"), "Hola mundo"),
  (("hello world", "fr"), "Bonjour le monde"),
  (("hello world", "de"), "Hallo Welt"),
  (("hello world", "ja"), "„Åì„Çì„Å´„Å°„ÅØ‰∏ñÁïå"),
  (("hello world", "zh"), "‰Ω†Â•Ω‰∏ñÁïå"),
  (("hello world", "ru"), "–ü—Ä–∏–≤–µ—Ç –º–∏—Ä"),
  (("good morning", "es"), "Buenos d√≠as"),
  (("good morning", "fr"), "Bonjour"),
  (("good morning", "de"), "Guten Morgen"),
  (("good morning", "ja"), "„Åä„ÅØ„Çà„ÅÜ„Åî„Åñ„ÅÑ„Åæ„Åô"),
  (("how are you", "de"), "Wie geht es dir?"),
  (("how are you", "es"), "¬øC√≥mo est√°s?"),
  (("how are you", "fr"), "Comment allez-vous?"),
  (("how are you", "ja"), "„ÅäÂÖÉÊ∞ó„Åß„Åô„ÅãÔºü"),
  (("thank you", "fr"), "Merci"),
  (("thank you", "es"), "Gracias"),
  (("thank you", "de"), "Danke"),
  (("thank you", "ja"), "„ÅÇ„Çä„Åå„Å®„ÅÜ„Åî„Åñ„ÅÑ„Åæ„Åô"),
  (("goodbye", "ja"), "„Åï„Çà„ÅÜ„Å™„Çâ"),
  (("goodbye", "es"), "Adi√≥s"),
  (("goodbye", "fr"), "Au revoir")]

/-- fetch_mock_translation, lines 167-219: look up the lowercased (text,
target) pair; on a miss synthesize the placeholder from the display name
stored under the lowercased, untrimmed target code (default Unknown).
Detected language is fixed at en with confidence 0.95; this path never
raises. -/
def fetchMockTranslation (text target_language : String) : TransData :=
  let key := (pyLower text, pyLower target_language)
  let translated :=
    match mock_translations.lookup key with
    | some t => t
    | none =>
        "[" ++ ((SUPPORTED_LANGUAGES.lookup (pyLower target_language)).getD
          "Unknown") ++ " translation of \x27" ++ text ++ "\x27]"
  { translatedText := translated
    detectedLanguage := some ("en", 95 / 100)
    is_mock := true }

/-- The try blocks of _fetch_real_translation, lines 240-298: map each
transport event to either translation data or the exact exception the source
raises, including the in-order payload classification (non-object, error
field with quota/limit then language checks, missing translatedText). -/
def fetchRealResult (ev : TransportEvent) : Except PyExc TransData :=
  match ev with
  | .timeout => .error (.timeoutError
      "Request timed out after 15 seconds. The translation API is not responding.")
  | .connFail => .error (.connectionError
      "Failed to connect to the translation API. Please check your internet connection.")
  | .otherRequestExc m => .error (.requestException ("API request failed: " ++ m))
  | .badJson => .error (.valueError
      "Malformed API response: Invalid JSON returned by the server.")
  | .payload .nonDict => .error (.valueError
      "Malformed API response: Expected JSON object.")
  | .payload (.dict (some error_msg) _) =>
      if strContains (pyLower error_msg) "quota" ||
          strContains (pyLower error_msg) "limit" then
        .error (.connectionError
          ("API quota exceeded: " ++ error_msg ++ ". Please try again later."))
      else if strContains (pyLower error_msg) "language" then
        .error (.valueError ("Invalid language code. " ++ error_msg))
      else
        .error (.connectionError ("API Error: " ++ error_msg))
  | .payload (.dict none none) => .error (.valueError
      "Malformed API response: Missing \x27translatedText\x27 field.")
  | .payload (.dict none (some tt)) =>
      .ok { translatedText := tt, detectedLanguage := none, is_mock := false }

/-- fetch_real_translation, lines 221-298: rate limit first (line 232), then
the network call; returns (outcome, new last_request_time, rate sleep).  The
rate-limit state update happens before the call, so it is the same whatever
the event brings. -/
def fetchRealTranslation (last now : ℚ) (ev : TransportEvent) :
    Except PyExc TransData × ℚ × ℚ :=
  let step := rateLimitStep last now
  (fetchRealResult ev, step.2, step.1)

/-- The retry decision of translate, lines 331-343: the first except clause
(TimeoutError, ConnectionError) marks the error retry-eligible; the second
(ValueError, RequestException) re-raises at once. -/
def isRetriedExc : PyExc → Bool
  | .timeoutError _ => true
  | .connectionError _ => true
  | .valueError _ => false
  | .requestException _ => false

/-- Terminal outcome of translate: a result dict with its attempts field, a
raised exception, or the `raise last_error` of line 346 executed with
last_error still None, which Python turns into a TypeError. -/
inductive TranslateOutcome where
  | ok (d : TransData) (attempts : Nat)
  | err (e : PyExc)
  | raiseNoneTypeError
deriving DecidableEq, Repr

/-- Observable trace of one translate call: outcome, backoff sleeps, rate
limiter sleeps, number of transport invocations, and the final
last_request_time field of the client. -/
structure Trace where
  outcome : TranslateOutcome
  retrySleeps : List Nat
  rateSleeps : List ℚ
  transportCalls : Nat
  lastRequestTime : ℚ
deriving Repr

/-- The for loop of translate, lines 319-346, from a given attempt index.
The fuel argument counts the loop iterations still to run (translate starts
it at max_retries, and it stays equal to max_retries - attempt): when it hits
zero the range is exhausted and line 346 raises last_error (None means a
TypeError).  Each iteration performs one fetch (mock or live per use_mock);
on success it returns with attempts = attempt + 1; on a retry-eligible error
it sleeps the computed backoff when attempt < max_retries - 1, else
re-raises; on any other error it re-raises at once.  The clock gives the
wall time at which each attempt issues its live call. -/
def translateLoop (c : Client) (events : Nat → TransportEvent)
    (clock : Nat → ℚ) (text target_language : String) :
    Nat → Nat → ℚ → Option PyExc → Trace
  | _attempt, 0, st, none =>
      { outcome := .raiseNoneTypeError, retrySleeps := [], rateSleeps := [],
        transportCalls := 0, lastRequestTime := st }
  | _attempt, 0, st, some e =>
      { outcome := .err e, retrySleeps := [], rateSleeps := [],
        transportCalls := 0, lastRequestTime := st }
  | attempt, fuel + 1, st, _last_error =>
    let fetched :=
      if c.useMock then
        (Except.ok (fetchMockTranslation text target_language), st, ([] : List ℚ))
      else
        let r := fetchRealTranslation st (clock attempt) (events attempt)
        (r.1, r.2.1, [r.2.2])
    match fetched.1 with
    | .ok d =>
        { outcome := .ok d (attempt + 1), retrySleeps := [],
          rateSleeps := fetched.2.2, transportCalls := 1,
          lastRequestTime := fetched.2.1 }
    | .error e =>
        if isRetriedExc e then
          if attempt < c.maxRetries - 1 then
            let rest := translateLoop c events clock text target_language
              (attempt + 1) fuel fetched.2.1 (some e)
            { outcome := rest.outcome,
              retrySleeps := calculateRetryDelay c attempt :: rest.retrySleeps,
              rateSleeps := fetched.2.2 ++ rest.rateSleeps,
              transportCalls := 1 + rest.transportCalls,
              lastRequestTime := rest.lastRequestTime }
          else
            { outcome := .err e, retrySleeps := [],
              rateSleeps := fetched.2.2, transportCalls := 1,
              lastRequestTime := fetched.2.1 }
        else
          { outcome := .err e, retrySleeps := [],
            rateSleeps := fetched.2.2, transportCalls := 1,
            lastRequestTime := fetched.2.1 }

/-- translate, lines 300-346: validate once (raising ValueError with the
validator's message on failure, before any attempt), then run the retry loop
from attempt 0 with max_retries iterations of fuel and last_error = None. -/
def translate (c : Client) (events : Nat → TransportEvent) (clock : Nat → ℚ)
    (text target_language : String) (st : ℚ) : Trace :=
  match validate_input text target_language with
  | (true, _) => translateLoop c events clock text target_language 0 c.maxRetries st none
  | (false, error_msg) =>
      { outcome := .err (.valueError (error_msg.getD "")), retrySleeps := [],
        rateSleeps := [], transportCalls := 0, lastRequestTime := st }

/-- The translated text carried by a success outcome, if any. -/
def translatedTextOf : TranslateOutcome → Option String
  | .ok d _ => some d.translatedText
  | _ => none

/-- The is_mock flag carried by a success outcome, if any. -/
def mockFlagOf : TranslateOutcome → Option Bool
  | .ok d _ => some d.is_mock
  | _ => none

/-- The attempts counter carried by a success outcome, if any. -/
def attemptsOf : TranslateOutcome → Option Nat
  | .ok _ n => some n
  | _ => none

/-- Is the outcome a success? -/
def isOkOutcome : TranslateOutcome → Bool
  | .ok _ _ => true
  | _ => false

/-- Is the outcome a raised ValueError (the class of validation failures)? -/
def isValueErrorOutcome : TranslateOutcome → Bool
  | .err (.valueError _) => true
  | _ => false

/-! Spec-side classification.  The following definitions are written from the
design document (sections 3, 4.4 and 7), not from the source, for refinement
comparison against the embedded code above. -/

/-- The ClassifiedFailure taxonomy of spec section 3. -/
inductive FailureKind where
  | validation
  | timeout
  | connectionFailure
  | rateLimited
  | malformedResponse
  | unsupportedLanguage
  | protocolError
deriving DecidableEq, Repr

/-- The retryable flag of the taxonomy, spec section 7: retryable is exactly
the set Timeout, ConnectionFailure, RateLimited, ProtocolError. -/
def specRetryable : FailureKind → Bool
  | .timeout => true
  | .connectionFailure => true
  | .rateLimited => true
  | .protocolError => true
  | .validation => false
  | .malformedResponse => false
  | .unsupportedLanguage => false

/-- Response Classifier rules of spec section 4.4, evaluated in order on a
payload: not a structured object means MalformedResponse; an explicit error
field means RateLimited on quota or limit mentions, else UnsupportedLanguage
on language mentions, else ProtocolError; a missing translated-text field
means MalformedResponse; otherwise a result (none). -/
def specClassifyPayload : Payload → Option FailureKind
  | .nonDict => some .malformedResponse
  | .dict (some error_msg) _ =>
      if strContains (pyLower error_msg) "quota" ||
          strContains (pyLower error_msg) "limit" then
        some .rateLimited
      else if strContains (pyLower error_msg) "language" then
        some .unsupportedLanguage
      else
        some .protocolError
  | .dict none (some _) => none
  | .dict none none => some .malformedResponse

/-- Classification of a whole live attempt per spec sections 4.3 and 4.4: a
timeout is Timeout, a connect-level failure is ConnectionFailure, any other
transport-layer exception is ProtocolError, an unparseable body is
MalformedResponse (not a structured object), and a parsed payload follows
the Response Classifier rules. -/
def specClassifyEvent : TransportEvent → Option FailureKind
  | .timeout => some .timeout
  | .connFail => some .connectionFailure
  | .otherRequestExc _ => some .protocolError
  | .badJson => some .malformedResponse
  | .payload p => specClassifyPayload p

/-- Did the event come from a transport-layer exception other than a timeout
or a connect failure (the requests.RequestException catch-all of line 258)? -/
def isOtherTransportExc : TransportEvent → Bool
  | .otherRequestExc _ => true
  | _ => false

/-- Outcome of the source classifier as an observer usable for comparison
with the spec rules. -/
inductive ClassOutcome where
  | result
  | fail (k : FailureKind)
  | unknown
deriving DecidableEq, Repr

/-- Read the classification off a source fetch outcome: success is a result,
and each raise site of _fetch_real_translation is recognised by the
exception class together with the fixed head of its message. -/
def sourceClassOf : Except PyExc TransData → ClassOutcome
  | .ok _ => .result
  | .error (.timeoutError _) => .fail .timeout
  | .error (.connectionError m) =>
      if strStartsWith m "API quota exceeded" then .fail .rateLimited
      else if strStartsWith m "API Error" then .fail .protocolError
      else .fail .connectionFailure
  | .error (.valueError m) =>
      if strStartsWith m "Malformed API response" then .fail .malformedResponse
      else if strStartsWith m "Invalid language code." then .fail .unsupportedLanguage
      else .unknown
  | .error (.requestException _) => .fail .protocolError

/-- A 5001-character text whose only whitespace is its leading space, so its
raw length exceeds 5000 while its stripped length is exactly 5000. -/
def overlongUntrimmedText : String :=
  String.mk (' ' :: List.replicate 5000 'a')

/-! Helper lemmas shared by the claim theorems. -/

/-- Lowercasing fixes every whitespace character. -/
lemma toLower_of_isPySpace {c : Char} (h : isPySpace c = true) :
    Char.toLower c = c := by
  simp only [isPySpace, Bool.or_eq_true, beq_iff_eq] at h
  rcases h with ((((h | h) | h) | h) | h) | h <;> subst h <;> decide

/-- A list whose strip is empty is all whitespace. -/
lemma all_space_of_stripList_nil {l : List Char} (h : stripList l = []) :
    ∀ c ∈ l, isPySpace c = true := by
  unfold stripList at h
  rw [List.reverse_eq_nil_iff, List.dropWhile_eq_nil_iff] at h
  intro c hc
  rw [← List.takeWhile_append_dropWhile (p := isPySpace) (l := l)] at hc
  rcases List.mem_append.1 hc with h1 | h2
  · exact List.mem_takeWhile_imp h1
  · exact h c (List.mem_reverse.2 h2)

/-- A string that strips to empty still strips to empty after lowercasing. -/
lemma pyStrip_pyLower_of_strip_nil {s : String} (h : pyStrip s = "") :
    pyStrip (pyLower s) = "" := by
  have hdata : stripList s.data = [] := by
    have := congrArg String.data h
    simpa [pyStrip] using this
  have hal : ∀ c ∈ s.data, isPySpace c = true := all_space_of_stripList_nil hdata
  have hmap : s.data.map Char.toLower = s.data := by
    conv_rhs => rw [← List.map_id s.data]
    exact List.map_congr_left fun c hc => toLower_of_isPySpace (hal c hc)
  unfold pyLower
  rw [hmap]
  exact h

/-- A failed validation short-circuits translate before the loop: the
ValueError with the validator message is raised, with no transport call, no
sleep of either kind, and the rate-limit state untouched. -/
lemma validate_false_trace (c : Client) (events : Nat → TransportEvent)
    (clock : Nat → ℚ) (text target_language : String) (st : ℚ)
    (h : (validate_input text target_language).1 = false) :
    translate c events clock text target_language st =
      { outcome := .err (.valueError
          ((validate_input text target_language).2.getD "")),
        retrySleeps := [], rateSleeps := [], transportCalls := 0,
        lastRequestTime := st } := by
  rcases hv : validate_input text target_language with ⟨b, m⟩
  rw [hv] at h
  simp only at h
  subst h
  simp [translate, hv]

/-- The whole supported-language membership test is false on the empty code. -/
lemma isSupportedLanguage_empty : isSupportedLanguage "" = false := by decide

/-- dropWhile for whitespace leaves a run of letters alone. -/
lemma dropWhile_replicate_a (n : Nat) :
    List.dropWhile isPySpace (List.replicate n 'a') = List.replicate n 'a' := by
  cases n with
  | zero => rfl
  | succ m =>
      rw [List.replicate_succ, List.dropWhile_cons]
      rw [if_neg (by decide : ¬ (isPySpace 'a' = true))]

/-- Stripping a run of letters is the identity. -/
lemma stripList_replicate_a (n : Nat) :
    stripList (List.replicate n 'a') = List.replicate n 'a' := by
  unfold stripList
  rw [dropWhile_replicate_a, List.reverse_replicate, dropWhile_replicate_a,
    List.reverse_replicate]

/-- Stripping the 5001-character text drops exactly its leading space. -/
lemma pyStrip_overlongUntrimmedText :
    pyStrip overlongUntrimmedText = String.mk (List.replicate 5000 'a') := by
  show String.mk (stripList (' ' :: List.replicate 5000 'a')) = _
  unfold stripList
  rw [List.dropWhile_cons, if_pos (by decide : isPySpace ' ' = true),
    dropWhile_replicate_a, List.reverse_replicate, dropWhile_replicate_a,
    List.reverse_replicate]

/-- The 5001-character text passes validation, because the length check of
line 149 measures the stripped text. -/
lemma validate_overlongUntrimmedText :
    validate_input overlongUntrimmedText "es" = (true, none) := by
  have h1 : ¬ (overlongUntrimmedText = "" ∨ pyStrip overlongUntrimmedText = "") := by
    rintro (h | h)
    · have hd : (' ' :: List.replicate 5000 'a' : List Char) = [] :=
        congrArg String.data h
      exact List.noConfusion hd
    · rw [pyStrip_overlongUntrimmedText] at h
      have hd : List.replicate 5000 'a' = ([] : List Char) :=
        congrArg String.data h
      have hlen := congrArg List.length hd
      rw [List.length_replicate] at hlen
      exact absurd hlen (by decide)
  have h2 : ¬ ((pyStrip overlongUntrimmedText).length > 5000) := by
    rw [pyStrip_overlongUntrimmedText]
    show ¬ ((List.replicate 5000 'a').length > 5000)
    rw [List.length_replicate]
    omega
  unfold validate_input
  rw [if_neg h1, if_neg h2,
    if_neg (by decide : ¬ (("es" : String) = "" ∨ pyStrip "es" = ""))]
  rfl

/-- Claims C1 and C5 need: a spec classification of MalformedResponse or
UnsupportedLanguage always comes from a raise of ValueError in the source. -/
lemma valueError_of_spec_nonretryable (ev : TransportEvent)
    (h : specClassifyEvent ev = some .malformedResponse ∨
      specClassifyEvent ev = some .unsupportedLanguage) :
    ∃ m, fetchRealResult ev = .error (.valueError m) := by
  cases ev with
  | timeout => simp [specClassifyEvent] at h
  | connFail => simp [specClassifyEvent] at h
  | otherRequestExc m => simp [specClassifyEvent] at h
  | badJson => exact ⟨_, rfl⟩
  | payload p =>
    cases p with
    | nonDict => exact ⟨_, rfl⟩
    | dict err tt =>
      cases err with
      | none =>
        cases tt with
        | none => exact ⟨_, rfl⟩
        | some t => simp [specClassifyEvent, specClassifyPayload] at h
      | some m =>
        by_cases h1 : (strContains (pyLower m) "quota" ||
            strContains (pyLower m) "limit") = true
        · simp [specClassifyEvent, specClassifyPayload, h1] at h
        · have h1' : (strContains (pyLower m) "quota" ||
              strContains (pyLower m) "limit") = false := by
            simpa using h1
          by_cases h2 : strContains (pyLower m) "language" = true
          · refine ⟨"Invalid language code. " ++ m, ?_⟩
            simp [fetchRealResult, h1', h2]
          · have h2' : strContains (pyLower m) "language" = false := by
              simpa using h2
            simp [specClassifyEvent, specClassifyPayload, h1', h2'] at h

/-! Claim theorems. -/

/-- C6: for every zero-indexed attempt number, the backoff delay equals
base_delay * 2 ^ attempt under the Exponential strategy,
base_delay * (attempt + 1) under the Linear strategy, and 0 under the
Immediate strategy regardless of attempt index; the delay is a pure function
of (strategy, base_delay, attempt), independent of the other client fields. -/
theorem backoff_delay_formula (m : Nat) (u : Bool) (d attempt : Nat) :
    calculateRetryDelay ⟨m, u, .exponential, d⟩ attempt = d * 2 ^ attempt ∧
    calculateRetryDelay ⟨m, u, .linear, d⟩ attempt = d * (attempt + 1) ∧
    calculateRetryDelay ⟨m, u, .immediate, d⟩ attempt = 0 :=
  ⟨rfl, rfl, rfl⟩

/-- C2: with strategy Exponential, base_delay 1, max_attempts 3 and a
transport that fails every attempt with Timeout, translate performs exactly
3 transport attempts, sleeps 1 then 2 time units between them, and surfaces
the Timeout failure itself as the terminal result, whatever the wall clock
and the initial rate-limit state are. -/
theorem exponential_timeout_three_attempts (clock : Nat → ℚ) (st : ℚ) :
    (translate ⟨3, false, .exponential, 1⟩ (fun _ => .timeout) clock
      "hello" "es" st).transportCalls = 3 ∧
    (translate ⟨3, false, .exponential, 1⟩ (fun _ => .timeout) clock
      "hello" "es" st).retrySleeps = [1, 2] ∧
    (translate ⟨3, false, .exponential, 1⟩ (fun _ => .timeout) clock
      "hello" "es" st).outcome = .err (.timeoutError
      "Request timed out after 15 seconds. The translation API is not responding.") :=
  ⟨rfl, rfl, rfl⟩

/-- C9: with max_retries = 0 (stored unchecked by the constructor) and a
valid request, the loop runs zero iterations and line 346 raises last_error
while it is still None, so translate ends in a TypeError rather than a
result or a classified failure, with no transport call and no sleep. -/
theorem zero_max_retries_raises_none (u : Bool) (s : RetryStrategy) (d : Nat)
    (events : Nat → TransportEvent) (clock : Nat → ℚ)
    (text target_language : String) (st : ℚ)
    (h : (validate_input text target_language).1 = true) :
    (translate ⟨0, u, s, d⟩ events clock text target_language st).outcome
      = .raiseNoneTypeError ∧
    (translate ⟨0, u, s, d⟩ events clock text target_language st).transportCalls = 0 ∧
    (translate ⟨0, u, s, d⟩ events clock text target_language st).retrySleeps = [] := by
  rcases hv : validate_input text target_language with ⟨b, m⟩
  rw [hv] at h
  simp only at h
  subst h
  refine ⟨?_, ?_, ?_⟩ <;> simp [translate, hv, translateLoop]

/-- Witness for C9 at a concrete valid request. -/
theorem zero_max_retries_raises_none_witness :
    (validate_input "hello" "es").1 = true ∧
    (translate ⟨0, false, .exponential, 1⟩ (fun _ => .timeout) (fun _ => 0)
      "hello" "es" 0).outcome = .raiseNoneTypeError :=
  ⟨by decide,
   (zero_max_retries_raises_none false .exponential 1 (fun _ => .timeout)
     (fun _ => 0) "hello" "es" 0 (by decide)).1⟩

/-- C10: a request that fails validation makes translate raise the
ValueError with the rate-limit state untouched: last_request_time keeps its
prior value, no transport call happens and the rate limiter never runs. -/
theorem validation_failure_preserves_rate_state (c : Client)
    (events : Nat → TransportEvent) (clock : Nat → ℚ)
    (text target_language : String) (st : ℚ)
    (h : (validate_input text target_language).1 = false) :
    (translate c events clock text target_language st).lastRequestTime = st ∧
    (translate c events clock text target_language st).transportCalls = 0 ∧
    (translate c events clock text target_language st).rateSleeps = [] ∧
    isValueErrorOutcome
      (translate c events clock text target_language st).outcome = true := by
  rw [validate_false_trace c events clock text target_language st h]
  exact ⟨rfl, rfl, rfl, rfl⟩

/-- Witness for C10 at a concrete invalid request. -/
theorem validation_failure_preserves_rate_state_witness :
    (validate_input "" "es").1 = false ∧
    (translate ⟨3, false, .exponential, 1⟩ (fun _ => .timeout) (fun _ => 0)
      "" "es" 0).lastRequestTime = 0 :=
  ⟨by decide,
   (validation_failure_preserves_rate_state ⟨3, false, .exponential, 1⟩
     (fun _ => .timeout) (fun _ => 0) "" "es" 0 (by decide)).1⟩

/-- C4 counterexample: the pseudo-code auto, claimed to be rejected as a
target, is accepted by validate_input, because the membership check uses the
full SUPPORTED_LANGUAGES mapping and auto is one of its keys. -/
theorem auto_accepted_as_target : validate_input "hello" "auto" = (true, none) := by
  decide

/-- C4 (amended): for every request whose text passes the text checks, the
target-language check accepts a code exactly when its lowercased, trimmed
form is a member of the supported-language mapping (so ES, es and padded es
are all accepted) - a mapping that also contains the pseudo-code auto, which
is therefore accepted as a target as well. -/
theorem target_acceptance_iff_membership (text target_language : String)
    (htext : ¬ (pyStrip text = "" ∨ 5000 < (pyStrip text).length)) :
    ((validate_input text target_language).1 = true ↔
      isSupportedLanguage (pyStrip (pyLower target_language)) = true) := by
  push_neg at htext
  obtain ⟨h1, h2⟩ := htext
  have htxt : ¬ (text = "" ∨ pyStrip text = "") := by
    rintro (rfl | hh)
    · exact h1 (by decide)
    · exact h1 hh
  have hlen : ¬ ((pyStrip text).length > 5000) := by omega
  constructor
  · intro h
    simp only [validate_input] at h
    rw [if_neg htxt, if_neg hlen] at h
    split at h
    · simp at h
    · split at h
      · simp at h
      · rename_i hsupp
        simpa using hsupp
  · intro h
    have htgt : ¬ (target_language = "" ∨ pyStrip target_language = "") := by
      rintro (rfl | hh)
      · exact absurd h (by decide)
      · rw [pyStrip_pyLower_of_strip_nil hh, isSupportedLanguage_empty] at h
        simp at h
    have hsupp : ¬ (isSupportedLanguage (pyStrip (pyLower target_language)) = false) := by
      rw [h]
      simp
    simp only [validate_input]
    rw [if_neg htxt, if_neg hlen, if_neg htgt, if_neg hsupp]

/-- Witness for C4 at a concrete request with a padded upper-case target. -/
theorem target_acceptance_iff_membership_witness :
    (¬ (pyStrip "hello" = "" ∨ 5000 < (pyStrip "hello").length)) ∧
    ((validate_input "hello" " ES ").1 = true ↔
      isSupportedLanguage (pyStrip (pyLower " ES ")) = true) :=
  ⟨by decide, target_acceptance_iff_membership "hello" " ES " (by decide)⟩

/-- C5 counterexample: a text of raw length 5001 whose stripped length is
5000 is not rejected: translate reaches the transport (one call) and
succeeds, against the claim that any text longer than 5000 units yields a
Validation failure with zero transport attempts. -/
theorem overlong_untrimmed_text_not_rejected :
    overlongUntrimmedText.length = 5001 ∧
    (translate ⟨3, true, .exponential, 1⟩ (fun _ => .timeout) (fun _ => 0)
      overlongUntrimmedText "es" 0).transportCalls = 1 ∧
    isOkOutcome (translate ⟨3, true, .exponential, 1⟩ (fun _ => .timeout)
      (fun _ => 0) overlongUntrimmedText "es" 0).outcome = true := by
  refine ⟨?_, ?_, ?_⟩
  · show (' ' :: List.replicate 5000 'a').length = 5001
    rw [List.length_cons, List.length_replicate]
  · simp [translate, validate_overlongUntrimmedText, translateLoop]
  · simp [translate, validate_overlongUntrimmedText, translateLoop, isOkOutcome]

/-- C5 (amended): every request whose stripped text is blank or longer than
5000 units makes translate raise a ValueError from validation with zero
transport calls, no sleeps of either kind, and an unchanged rate-limit
state; a validation failure never reaches the retry loop. -/
theorem blank_or_overlong_stripped_validation (c : Client)
    (events : Nat → TransportEvent) (clock : Nat → ℚ)
    (text target_language : String) (st : ℚ)
    (h : pyStrip text = "" ∨ 5000 < (pyStrip text).length) :
    isValueErrorOutcome
      (translate c events clock text target_language st).outcome = true ∧
    (translate c events clock text target_language st).transportCalls = 0 ∧
    (translate c events clock text target_language st).retrySleeps = [] ∧
    (translate c events clock text target_language st).rateSleeps = [] ∧
    (translate c events clock text target_language st).lastRequestTime = st := by
  have hvf : (validate_input text target_language).1 = false := by
    simp only [validate_input]
    rcases h with hb | hl
    · rw [if_pos (Or.inr hb)]
    · by_cases hb2 : text = "" ∨ pyStrip text = ""
      · rw [if_pos hb2]
      · rw [if_neg hb2, if_pos (by omega : (pyStrip text).length > 5000)]
  rw [validate_false_trace c events clock text target_language st hvf]
  exact ⟨rfl, rfl, rfl, rfl, rfl⟩

/-- Witness for C5 at a concrete blank text. -/
theorem blank_or_overlong_stripped_validation_witness :
    (pyStrip " " = "" ∨ 5000 < (pyStrip " ").length) ∧
    isValueErrorOutcome (translate ⟨3, false, .exponential, 1⟩
      (fun _ => .timeout) (fun _ => 0) " " "es" 0).outcome = true :=
  ⟨Or.inl (by decide),
   (blank_or_overlong_stripped_validation ⟨3, false, .exponential, 1⟩
     (fun _ => .timeout) (fun _ => 0) " " "es" 0 (Or.inl (by decide))).1⟩

/-- C7 counterexample: the padded target of a valid request whose pair
misses the mock table is looked up unstripped, so the placeholder embeds
Unknown instead of the target language display name Spanish. -/
theorem mock_placeholder_misses_display_name :
    (validate_input "hello world" " es ").1 = true ∧
    SUPPORTED_LANGUAGES.lookup (pyStrip (pyLower " es ")) = some "Spanish" ∧
    mock_translations.lookup (pyLower "hello world", pyLower " es ") = none ∧
    translatedTextOf (translate ⟨3, true, .exponential, 1⟩ (fun _ => .timeout)
      (fun _ => 0) "hello world" " es " 0).outcome
      = some "[Unknown translation of \x27hello world\x27]" ∧
    strContains "[Unknown translation of \x27hello world\x27]" "Spanish" = false := by
  refine ⟨by decide, by decide, by decide, rfl, by decide⟩

/-- C7 (amended): the mock transport path is total and deterministic.
Translating hello world to es via the mock path returns Hola mundo with the
mock origin flag and one attempt used; every valid request succeeds on the
first attempt with the mock fetch result; and on a table miss the
placeholder embeds the display name found under the lowercased, untrimmed
target code, defaulting to Unknown, together with the original text. -/
theorem mock_path_total_and_deterministic :
    (∀ (events : Nat → TransportEvent) (clock : Nat → ℚ) (st : ℚ),
      translatedTextOf (translate ⟨3, true, .exponential, 1⟩ events clock
        "hello world" "es" st).outcome = some "Hola mundo" ∧
      mockFlagOf (translate ⟨3, true, .exponential, 1⟩ events clock
        "hello world" "es" st).outcome = some true ∧
      attemptsOf (translate ⟨3, true, .exponential, 1⟩ events clock
        "hello world" "es" st).outcome = some 1) ∧
    (∀ (c : Client) (events : Nat → TransportEvent) (clock : Nat → ℚ)
        (text target_language : String) (st : ℚ),
      c.useMock = true → 1 ≤ c.maxRetries →
      (validate_input text target_language).1 = true →
      (translate c events clock text target_language st).outcome
        = .ok (fetchMockTranslation text target_language) 1 ∧
      (translate c events clock text target_language st).transportCalls = 1) ∧
    (∀ text target_language : String,
      mock_translations.lookup (pyLower text, pyLower target_language) = none →
      (fetchMockTranslation text target_language).translatedText =
        "[" ++ ((SUPPORTED_LANGUAGES.lookup (pyLower target_language)).getD
          "Unknown") ++ " translation of \x27" ++ text ++ "\x27]") := by
  refine ⟨fun events clock st => ⟨rfl, rfl, rfl⟩, ?_, ?_⟩
  · intro c events clock text target_language st hm hmr hv
    rcases hvp : validate_input text target_language with ⟨b, mm⟩
    rw [hvp] at hv
    simp only at hv
    subst hv
    obtain ⟨f, hf⟩ : ∃ f, c.maxRetries = f + 1 :=
      ⟨c.maxRetries - 1, by omega⟩
    refine ⟨?_, ?_⟩ <;> (simp only [translate, hvp]; rw [hf]; simp [translateLoop, hm])
  · intro text target_language hmiss
    simp [fetchMockTranslation, hmiss]

/-- Witness for C7 at a concrete mock-table hit and a concrete miss. -/
theorem mock_path_total_and_deterministic_witness :
    ((translate ⟨3, true, .exponential, 1⟩ (fun _ => .timeout) (fun _ => 0)
      "good morning" "fr" 0).outcome
        = .ok (fetchMockTranslation "good morning" "fr") 1) ∧
    ((fetchMockTranslation "xyz" "es").translatedText
        = "[Spanish translation of \x27xyz\x27]") :=
  ⟨(mock_path_total_and_deterministic.2.1 ⟨3, true, .exponential, 1⟩
      (fun _ => .timeout) (fun _ => 0) "good morning" "fr" 0 rfl (by decide)
      (by decide)).1,
   by rw [mock_path_total_and_deterministic.2.2 "xyz" "es" (by decide)]; rfl⟩

/-- C8: the rate limiter guarantees its minimum spacing: whenever the clock
has not gone backwards, the time at which the next live call issues (which
is also the new last_request_time, written right after the wait ends) is at
least min_interval past the previous one; the new state does not depend on
what the call then brings; and the mock path never invokes the limiter, so
it adds no rate sleep and leaves last_request_time unchanged. -/
theorem rate_limiter_min_spacing :
    (∀ last now : ℚ, last ≤ now →
      last + minInterval ≤ (rateLimitStep last now).2 ∧
      (rateLimitStep last now).2 = now + (rateLimitStep last now).1) ∧
    (∀ (last now : ℚ) (ev : TransportEvent),
      (fetchRealTranslation last now ev).2.1 = (rateLimitStep last now).2) ∧
    (∀ (n : Nat) (s : RetryStrategy) (d : Nat)
        (events : Nat → TransportEvent) (clock : Nat → ℚ)
        (text target_language : String) (st : ℚ),
      (translate ⟨n, true, s, d⟩ events clock text target_language st).rateSleeps
        = [] ∧
      (translate ⟨n, true, s, d⟩ events clock text target_language
        st).lastRequestTime = st) := by
  refine ⟨?_, fun last now ev => rfl, ?_⟩
  · intro last now h
    unfold rateLimitStep
    by_cases hc : now - last < minInterval
    · rw [if_pos hc]
      constructor
      · show last + minInterval ≤ now + (minInterval - (now - last))
        ring_nf
        linarith
      · rfl
    · rw [if_neg hc]
      push_neg at hc
      constructor
      · show last + minInterval ≤ now
        linarith
      · show now = now + 0
        ring
  · intro n s d events clock text target_language st
    rcases hv : validate_input text target_language with ⟨b, m⟩
    cases b
    · rw [validate_false_trace _ _ _ _ _ _ (by rw [hv])]
      exact ⟨rfl, rfl⟩
    · cases n with
      | zero => exact ⟨by simp [translate, hv, translateLoop],
          by simp [translate, hv, translateLoop]⟩
      | succ f => exact ⟨by simp [translate, hv, translateLoop],
          by simp [translate, hv, translateLoop]⟩

/-- Witness for C8 at a concrete pair of call times. -/
theorem rate_limiter_min_spacing_witness :
    (0 : ℚ) + minInterval ≤ (rateLimitStep 0 0).2 ∧
    (rateLimitStep 0 0).2 = 0 + (rateLimitStep 0 0).1 :=
  rate_limiter_min_spacing.1 0 0 (le_refl 0)

/-- C3: the source classifier agrees with the spec rules, evaluated in
order, on every live provider payload: a non-object payload is
MalformedResponse; an explicit error field gives RateLimited on quota or
limit mentions, else UnsupportedLanguage on language mentions, else
ProtocolError; a payload without the translated-text field is
MalformedResponse; anything else produces a result. -/
theorem classifier_rules_in_order (p : Payload) :
    sourceClassOf (fetchRealResult (.payload p)) =
      (match specClassifyPayload p with
       | none => ClassOutcome.result
       | some k => ClassOutcome.fail k) := by
  cases p with
  | nonDict => rfl
  | dict err tt =>
    cases err with
    | none =>
      cases tt with
      | none => rfl
      | some t => rfl
    | some m =>
      by_cases h1 : (strContains (pyLower m) "quota" ||
          strContains (pyLower m) "limit") = true
      · have hL : fetchRealResult (.payload (.dict (some m) tt)) =
            .error (.connectionError
              ("API quota exceeded: " ++ m ++ ". Please try again later.")) := by
          simp [fetchRealResult, h1]
        have hR : specClassifyPayload (.dict (some m) tt) = some .rateLimited := by
          simp [specClassifyPayload, h1]
        rw [hL, hR]
        rfl
      · have h1' : (strContains (pyLower m) "quota" ||
            strContains (pyLower m) "limit") = false := by simpa using h1
        by_cases h2 : strContains (pyLower m) "language" = true
        · have hL : fetchRealResult (.payload (.dict (some m) tt)) =
              .error (.valueError ("Invalid language code. " ++ m)) := by
            simp [fetchRealResult, h1', h2]
          have hR : specClassifyPayload (.dict (some m) tt) =
              some .unsupportedLanguage := by
            simp [specClassifyPayload, h1', h2]
          rw [hL, hR]
          rfl
        · have h2' : strContains (pyLower m) "language" = false := by
            simpa using h2
          have hL : fetchRealResult (.payload (.dict (some m) tt)) =
              .error (.connectionError ("API Error: " ++ m)) := by
            simp [fetchRealResult, h1', h2']
          have hR : specClassifyPayload (.dict (some m) tt) =
              some .protocolError := by
            simp [specClassifyPayload, h1', h2']
          rw [hL, hR]
          rfl

/-- C1 counterexample: a transport-layer request exception, which the spec
classifies as ProtocolError and hence as retryable, is not retried even
though two attempts remain: translate with max_retries = 3 stops after one
transport call, re-raising the RequestException without sleeping. -/
theorem protocol_error_from_transport_not_retried :
    specClassifyEvent (.otherRequestExc "boom") = some .protocolError ∧
    specRetryable .protocolError = true ∧
    (translate ⟨3, false, .exponential, 1⟩ (fun _ => .otherRequestExc "boom")
      (fun _ => 0) "hello" "es" 0).transportCalls = 1 ∧
    (translate ⟨3, false, .exponential, 1⟩ (fun _ => .otherRequestExc "boom")
      (fun _ => 0) "hello" "es" 0).outcome
      = .err (.requestException "API request failed: boom") ∧
    (translate ⟨3, false, .exponential, 1⟩ (fun _ => .otherRequestExc "boom")
      (fun _ => 0) "hello" "es" 0).retrySleeps = [] :=
  ⟨rfl, rfl, rfl, rfl, rfl⟩

/-- C1 (amended): a failure raised during an attempt is retried, when
attempts remain, exactly when the raised exception is a TimeoutError or a
ConnectionError; in terms of the spec taxonomy that covers Timeout,
ConnectionFailure, RateLimited, and the ProtocolError arising from a
provider error payload, but not the ProtocolError arising from a
transport-layer request exception.  A MalformedResponse or
UnsupportedLanguage classification never triggers a second attempt even
when more attempts remain. -/
theorem retry_decision_matches_exception_classes :
    (∀ (ev : TransportEvent) (e : PyExc), fetchRealResult ev = .error e →
      (isRetriedExc e = true ↔
        (specClassifyEvent ev = some .timeout ∨
         specClassifyEvent ev = some .connectionFailure ∨
         specClassifyEvent ev = some .rateLimited ∨
         (specClassifyEvent ev = some .protocolError ∧
          isOtherTransportExc ev = false)))) ∧
    (∀ (c : Client) (events : Nat → TransportEvent) (clock : Nat → ℚ)
        (text target_language : String) (st : ℚ),
      c.useMock = false → 2 ≤ c.maxRetries →
      (validate_input text target_language).1 = true →
      (specClassifyEvent (events 0) = some .malformedResponse ∨
       specClassifyEvent (events 0) = some .unsupportedLanguage) →
      (translate c events clock text target_language st).transportCalls = 1 ∧
      isOkOutcome (translate c events clock text target_language st).outcome
        = false) := by
  constructor
  · intro ev e h
    cases ev with
    | timeout =>
      simp only [fetchRealResult, Except.error.injEq] at h
      subst h
      simp [isRetriedExc, specClassifyEvent]
    | connFail =>
      simp only [fetchRealResult, Except.error.injEq] at h
      subst h
      simp [isRetriedExc, specClassifyEvent]
    | otherRequestExc m =>
      simp only [fetchRealResult, Except.error.injEq] at h
      subst h
      simp [isRetriedExc, specClassifyEvent, isOtherTransportExc]
    | badJson =>
      simp only [fetchRealResult, Except.error.injEq] at h
      subst h
      simp [isRetriedExc, specClassifyEvent]
    | payload p =>
      cases p with
      | nonDict =>
        simp only [fetchRealResult, Except.error.injEq] at h
        subst h
        simp [isRetriedExc, specClassifyEvent, specClassifyPayload]
      | dict err tt =>
        cases err with
        | none =>
          cases tt with
          | some t => simp [fetchRealResult] at h
          | none =>
            simp only [fetchRealResult, Except.error.injEq] at h
            subst h
            simp [isRetriedExc, specClassifyEvent, specClassifyPayload]
        | some m =>
          by_cases h1 : (strContains (pyLower m) "quota" ||
              strContains (pyLower m) "limit") = true
          · rw [show fetchRealResult (.payload (.dict (some m) tt)) =
                .error (.connectionError ("API quota exceeded: " ++ m ++
                  ". Please try again later.")) from by simp [fetchRealResult, h1]]
              at h
            simp only [Except.error.injEq] at h
            subst h
            simp [isRetriedExc, specClassifyEvent, specClassifyPayload, h1,
              isOtherTransportExc]
          · have h1' : (strContains (pyLower m) "quota" ||
                strContains (pyLower m) "limit") = false := by simpa using h1
            by_cases h2 : strContains (pyLower m) "language" = true
            · rw [show fetchRealResult (.payload (.dict (some m) tt)) =
                  .error (.valueError ("Invalid language code. " ++ m)) from by
                    simp [fetchRealResult, h1', h2]] at h
              simp only [Except.error.injEq] at h
              subst h
              simp [isRetriedExc, specClassifyEvent, specClassifyPayload, h1', h2]
            · have h2' : strContains (pyLower m) "language" = false := by
                simpa using h2
              rw [show fetchRealResult (.payload (.dict (some m) tt)) =
                  .error (.connectionError ("API Error: " ++ m)) from by
                    simp [fetchRealResult, h1', h2']] at h
              simp only [Except.error.injEq] at h
              subst h
              simp [isRetriedExc, specClassifyEvent, specClassifyPayload, h1',
                h2', isOtherTransportExc]
  · intro c events clock text target_language st hm hmr hv hk
    obtain ⟨me, hfe⟩ := valueError_of_spec_nonretryable _ hk
    rcases hvp : validate_input text target_language with ⟨b, mm⟩
    rw [hvp] at hv
    simp only at hv
    subst hv
    obtain ⟨f, hf⟩ : ∃ f, c.maxRetries = f + 1 := ⟨c.maxRetries - 1, by omega⟩
    refine ⟨?_, ?_⟩
    all_goals
      simp only [translate, hvp]
      rw [hf]
      simp [translateLoop, hm, fetchRealTranslation, hfe, isRetriedExc, isOkOutcome]

/-- Witness for C1 at a concrete malformed payload and a concrete client. -/
theorem retry_decision_matches_exception_classes_witness :
    (isRetriedExc (.valueError
        "Malformed API response: Missing \x27translatedText\x27 field.") = true ↔
      (specClassifyEvent (.payload (.dict none none)) = some .timeout ∨
       specClassifyEvent (.payload (.dict none none)) = some .connectionFailure ∨
       specClassifyEvent (.payload (.dict none none)) = some .rateLimited ∨
       (specClassifyEvent (.payload (.dict none none)) = some .protocolError ∧
        isOtherTransportExc (.payload (.dict none none)) = false))) ∧
    ((translate ⟨3, false, .exponential, 1⟩ (fun _ => .payload (.dict none none))
        (fun _ => 0) "hello" "es" 0).transportCalls = 1 ∧
      isOkOutcome (translate ⟨3, false, .exponential, 1⟩
        (fun _ => .payload (.dict none none)) (fun _ => 0)
        "hello" "es" 0).outcome = false) :=
  ⟨retry_decision_matches_exception_classes.1 (.payload (.dict none none)) _ rfl,
   retry_decision_matches_exception_classes.2 ⟨3, false, .exponential, 1⟩
     (fun _ => .payload (.dict none none)) (fun _ => 0) "hello" "es" 0 rfl
     (by decide) (by decide) (Or.inl rfl)⟩

end TranslationClient
